import Mathlib

/-!
Shallow embedding of `neural_sp/models/modules/transformer.py` and of the
training-loop driver `models/test/pytorch/attention/test_attention.py`.

Modelling conventions:
* a tensor of static shape `[B, T, D]` is a function `Fin B → Fin T → Fin D → ℝ`;
  torch float32 arithmetic is modelled over the reals;
* raising an exception is modelled by an `Except`/`Option` error value;
* learned submodules (`nn.Linear`, `nn.LayerNorm`, `MultiheadAttentionMechanism`,
  the chosen nonlinearity, `nn.Dropout`) are abstract functions: their parameters
  are irrelevant to the control-flow and data-flow properties proved here.
-/

set_option autoImplicit false

/-- Tensors of shape `[B, T, D]`. -/
def Tensor3 (B T D : ℕ) : Type := Fin B → Fin T → Fin D → ℝ

/-- State of a constructed `PositionalEncoding` module (transformer.py lines 33-49).
The buffer `pe` is registered only when `pe_type != 'none'`; `pe = none` models its
absence (the batch dimension added by `unsqueeze(0)` is dropped, so `pe pos i`
is the source's `pe[0, pos, i]`). -/
structure PositionalEncoding where
  d_model : ℕ
  pe_type : String
  max_len : ℕ
  pe : Option (ℕ → ℕ → ℝ)

/-- Entry `j` of `div_term = exp(arange(0, d_model, 2) * -(log 10000 / d_model))`
(transformer.py line 43); the `j`-th element of `arange(0, d_model, 2)` is `2*j`. -/
noncomputable def PositionalEncoding.divTerm (d_model : ℕ) (j : ℕ) : ℝ :=
  Real.exp (((2 * j : ℕ) : ℝ) * -(Real.log 10000 / (d_model : ℝ)))

/-- The buffer built by transformer.py lines 41-45:
`pe = torch.zeros(max_len, d_model)`, then
`pe[:, 0::2] = sin(position * div_term)` assigns column `2*j` the value
`sin(pos * div_term[j])` and `pe[:, 1::2] = cos(position * div_term)` assigns
column `2*j+1` the value `cos(pos * div_term[j])`; entries outside the buffer
bounds keep the `zeros` value `0`. -/
noncomputable def PositionalEncoding.peTable (d_model max_len : ℕ) (pos i : ℕ) : ℝ :=
  if pos < max_len ∧ i < d_model then
    if i % 2 = 0 then Real.sin ((pos : ℝ) * PositionalEncoding.divTerm d_model (i / 2))
    else Real.cos ((pos : ℝ) * PositionalEncoding.divTerm d_model (i / 2))
  else 0

/-- `PositionalEncoding.__init__` (transformer.py lines 33-49).  For
`pe_type != 'none'` the two slice assignments of lines 44-45 are accepted by
torch when the source column count equals the slice column count or is `1`
(size-1 broadcasting, NumPy parity; a size-1 source dimension also broadcasts
into an empty slice).  The source `position * div_term` has `(d_model+1)/2`
columns (the length of `arange(0, d_model, 2)`), `pe[:, 0::2]` has
`(d_model+1)/2` columns and `pe[:, 1::2]` has `d_model/2` columns; `none`
models the shape error torch raises when an assignment is not accepted.  In
the only broadcast case reachable here, `d_model = 1`, the cosine slice is
empty and nothing is written, which `peTable` already reflects (no entry with
`i ≥ d_model`); a size-1 source never meets a wider slice here, so `peTable`
is exact for every accepted `d_model`.  Note that no value of `pe_type`
itself is rejected here. -/
noncomputable def PositionalEncoding.init (d_model : ℕ) (pe_type : String)
    (max_len : ℕ) : Option PositionalEncoding :=
  if pe_type = "none" then
    some ⟨d_model, pe_type, max_len, none⟩
  else
    if ((d_model + 1) / 2 = (d_model + 1) / 2 ∨ (d_model + 1) / 2 = 1) ∧
        ((d_model + 1) / 2 = d_model / 2 ∨ (d_model + 1) / 2 = 1) then
      some ⟨d_model, pe_type, max_len, some (PositionalEncoding.peTable d_model max_len)⟩
    else none

/-- Errors that `PositionalEncoding.forward` can raise: `notImplemented` is the
`raise NotImplementedError(self.pe_type)` of line 62; `shapeMismatch` stands for
the runtime shape errors of the tensor sum (line 58) / concatenation (line 60). -/
inductive PEErr where
  | notImplemented
  | shapeMismatch
deriving DecidableEq

/-- `PositionalEncoding.forward` (transformer.py lines 51-63) on an `[B, T, D]`
input.  The input is first scaled by `sqrt(d_model)`; for `'none'` the scaled
input is returned before any dropout; for `'add'` the positional buffer rows
`0..T-1` are added and dropout is applied; for `'concat'` the buffer rows are
concatenated along the feature dimension and dropout is applied; any other
`pe_type` raises `NotImplementedError`.  `dropout` abstracts `self.dropout`
(one function per feature width, since `'concat'` widens the features).
Degenerate size-one torch broadcasting of the buffer slice is not modelled;
inputs outside the exact-shape cases are reported as `shapeMismatch`. -/
noncomputable def PositionalEncoding.forward (m : PositionalEncoding) {B T D : ℕ}
    (dropout : (E : ℕ) → Tensor3 B T E → Tensor3 B T E)
    (xs : Tensor3 B T D) : Except PEErr ((E : ℕ) × Tensor3 B T E) :=
  if m.pe_type = "none" then
    Except.ok ⟨D, fun b t i => xs b t i * Real.sqrt (m.d_model : ℝ)⟩
  else if m.pe_type = "add" then
    if D = m.d_model ∧ T ≤ m.max_len then
      Except.ok ⟨D, dropout D (fun b t i =>
        xs b t i * Real.sqrt (m.d_model : ℝ) + (m.pe.getD (fun _ _ => 0)) t i)⟩
    else Except.error PEErr.shapeMismatch
  else if m.pe_type = "concat" then
    if B = 1 ∧ T ≤ m.max_len then
      Except.ok ⟨D + m.d_model, dropout (D + m.d_model) (fun b t i =>
        if h : (i : ℕ) < D then xs b t ⟨i, h⟩ * Real.sqrt (m.d_model : ℝ)
        else (m.pe.getD (fun _ _ => 0)) t ((i : ℕ) - D))⟩
    else Except.error PEErr.shapeMismatch
  else Except.error PEErr.notImplemented

/-- The four nonlinearities supported by `PositionwiseFeedForward.__init__`. -/
inductive FFNNonlinear where
  | relu
  | gelu
  | geluAccurate
  | glu
deriving DecidableEq

/-- The nonlinearity dispatch of `PositionwiseFeedForward.__init__`
(transformer.py lines 84-93); `none` models `raise NotImplementedError(nonlinear)`. -/
def PositionwiseFeedForward.selectNonlinear (nonlinear : String) : Option FFNNonlinear :=
  if nonlinear = "relu" then some FFNNonlinear.relu
  else if nonlinear = "gelu" then some FFNNonlinear.gelu
  else if nonlinear = "gelu_accurate" then some FFNNonlinear.geluAccurate
  else if nonlinear = "glu" then some FFNNonlinear.glu
  else none

/-- A constructed `PositionwiseFeedForward` module (transformer.py lines 78-93):
`w_1 : d_in → d_ff` and `w_2 : d_ff → d_out` are the two linear layers applied
position-wise to `[B, T, ·]` tensors; `dropout` and the selected `nonlinear`
act on the hidden `[B, T, d_ff]` tensor. -/
structure PositionwiseFeedForward (B T d_in d_ff d_out : ℕ) where
  w_1 : Tensor3 B T d_in → Tensor3 B T d_ff
  w_2 : Tensor3 B T d_ff → Tensor3 B T d_out
  dropout : Tensor3 B T d_ff → Tensor3 B T d_ff
  nonlinear : Tensor3 B T d_ff → Tensor3 B T d_ff

/-- `PositionwiseFeedForward.forward` (transformer.py lines 95-96). -/
def PositionwiseFeedForward.forward {B T d_in d_ff d_out : ℕ}
    (f : PositionwiseFeedForward B T d_in d_ff d_out)
    (xs : Tensor3 B T d_in) : Tensor3 B T d_out :=
  f.w_2 (f.dropout (f.nonlinear (f.w_1 xs)))

/-- A constructed `TransformerEncoderBlock` (transformer.py lines 114-134), its
submodules as abstract functions over a tensor type `α`; `β` is the type of the
attention-weight output of `self_attn`, `μ` the mask type. -/
structure TransformerEncoderBlock (α β μ : Type) where
  norm1 : α → α
  self_attn : α → α → α → Option μ → α × β
  dropout1 : α → α
  norm2 : α → α
  feed_forward : α → α
  dropout2 : α → α

/-- `TransformerEncoderBlock.forward` (transformer.py lines 136-160).
`self_attn.reset()` only clears cached state inside the attention module and
has no counterpart in this pure model. -/
def TransformerEncoderBlock.forward {α β μ : Type} [Add α]
    (blk : TransformerEncoderBlock α β μ) (xs : α) (xx_mask : Option μ) : α × β :=
  let residual := xs
  let xs1 := blk.norm1 xs
  let p := blk.self_attn xs1 xs1 xs1 xx_mask
  let xs2 := blk.dropout1 p.1 + residual
  let residual2 := xs2
  let xs3 := blk.norm2 xs2
  let xs4 := blk.dropout2 (blk.feed_forward xs3) + residual2
  (xs4, p.2)

/-- A constructed `TransformerDecoderBlock` (transformer.py lines 180-217).
`norm2`, `src_attn`, `dropout2` are registered only when `src_tgt_attention`
is set; `forward` never touches them otherwise, so they are kept as plain
fields here.  `src_attn` receives the optional encoder output `xs` as key and
value (`k/v/q`, line 247). -/
structure TransformerDecoderBlock (α β μ : Type) where
  atype : String
  src_tgt_attention : Bool
  norm1 : α → α
  self_attn : α → α → α → Option μ → α × β
  dropout1 : α → α
  norm2 : α → α
  src_attn : Option α → Option α → α → Option μ → α × β
  dropout2 : α → α
  norm3 : α → α
  feed_forward : α → α
  dropout3 : α → α

/-- `TransformerDecoderBlock.__init__` (transformer.py lines 180-217):
`atype == "average"` raises `NotImplementedError` before anything is built;
constructing the `PositionwiseFeedForward` submodule raises on an unknown
`ffn_nonlinear` (line 215 with lines 92-93).  The submodules themselves are
supplied as abstract functions. -/
def TransformerDecoderBlock.init {α β μ : Type} (atype ffn_nonlinear : String)
    (src_tgt_attention : Bool)
    (norm1 : α → α) (self_attn : α → α → α → Option μ → α × β) (dropout1 : α → α)
    (norm2 : α → α) (src_attn : Option α → Option α → α → Option μ → α × β)
    (dropout2 : α → α)
    (norm3 : α → α) (feed_forward : α → α) (dropout3 : α → α) :
    Option (TransformerDecoderBlock α β μ) :=
  if atype = "average" then none
  else if (PositionwiseFeedForward.selectNonlinear ffn_nonlinear).isSome then
    some ⟨atype, src_tgt_attention, norm1, self_attn, dropout1,
          norm2, src_attn, dropout2, norm3, feed_forward, dropout3⟩
  else none

/-- `TransformerDecoderBlock.forward` (transformer.py lines 219-255); `none`
models the `NotImplementedError` raised when `atype == "average"` (line 235).
The result is `(ys, yy_aw, xy_aw)`; `xy_aw` stays `None` unless the
source-target attention branch runs. -/
def TransformerDecoderBlock.forward {α β μ : Type} [Add α]
    (blk : TransformerDecoderBlock α β μ) (ys : α) (yy_mask : Option μ)
    (xs : Option α) (xy_mask : Option μ) : Option (α × β × Option β) :=
  if blk.atype = "average" then none
  else
    let y1 := blk.norm1 ys
    let p := blk.self_attn y1 y1 y1 yy_mask
    let ys1 := blk.dropout1 p.1 + ys
    let q : α × Option β :=
      if blk.src_tgt_attention then
        let y2 := blk.norm2 ys1
        let r := blk.src_attn xs xs y2 xy_mask
        (blk.dropout2 r.1 + ys1, some r.2)
      else (ys1, none)
    let y3 := blk.norm3 q.1
    let ys3 := blk.dropout3 (blk.feed_forward y3) + q.1
    some (ys3, p.2, q.2)

/-- Training loop of `TestAttention.check` (test_attention.py lines 231-293).
`loopAux ler fuel step` runs the remaining `fuel` iterations starting at the
0-based `step` index and returns the number of optimizer steps executed: each
iteration performs one optimizer step, and on every 10th step the model is
decoded and scored; the loop breaks when the edit-distance error `ler step` is
below `0.1` (line 284).  `ler` abstracts the decode-and-score result at each
step; nothing else in the body can stop the loop early. -/
def TestAttention.loopAux (ler : ℕ → ℚ) : ℕ → ℕ → ℕ
  | 0, step => step
  | fuel + 1, step =>
    if (step + 1) % 10 = 0 ∧ ler step < 1 / 10 then step + 1
    else TestAttention.loopAux ler fuel (step + 1)

/-- `max_step = 1000` (test_attention.py line 231). -/
def TestAttention.maxStep : ℕ := 1000

/-- Number of optimizer steps executed by one `TestAttention.check` run. -/
def TestAttention.stepsRun (max_step : ℕ) (ler : ℕ → ℚ) : ℕ :=
  TestAttention.loopAux ler max_step 0

/-- Outcome of a unittest test method. -/
inductive TestOutcome where
  | pass
  | fail
deriving DecidableEq

/-- Outcome of one `TestAttention.check` run: the body contains no assertion
(`assert*` never appears), so after the training loop the method returns
normally and the test passes on every error trajectory. -/
def TestAttention.checkOutcome (max_step : ℕ) (ler : ℕ → ℚ) : TestOutcome :=
  let _ := TestAttention.stepsRun max_step ler
  TestOutcome.pass

/-- Witness dropout module: the identity at every feature width (eval mode). -/
def dropW : (E : ℕ) → Tensor3 1 1 E → Tensor3 1 1 E := fun _ x => x

/-- Witness module with the unsupported `pe_type = "bogus"`. -/
noncomputable def peBogusW : PositionalEncoding :=
  ⟨4, "bogus", 5000, some (PositionalEncoding.peTable 4 5000)⟩

/-- Witness input of shape `[1, 1, 4]`. -/
def xsW1 : Tensor3 1 1 4 := fun _ _ _ => 0

/-- Witness module with `pe_type = "add"`, `d_model = 2`, `max_len = 5`. -/
noncomputable def peAddW : PositionalEncoding :=
  ⟨2, "add", 5, some (PositionalEncoding.peTable 2 5)⟩

/-- Witness input of shape `[1, 1, 2]`. -/
def xsW7 : Tensor3 1 1 2 := fun _ _ _ => 1

/-- Witness module with `pe_type = "none"`, `d_model = 2`. -/
def peNoneW : PositionalEncoding := ⟨2, "none", 5, none⟩

/-- Witness input of shape `[1, 1, 2]`. -/
def xsW8 : Tensor3 1 1 2 := fun _ _ _ => 2

/-- Concrete encoder block over `ℤ` used by the `C4` witness. -/
def encBlkW : TransformerEncoderBlock ℤ ℤ Unit :=
  ⟨fun x => x + 1, fun a b c _ => (a * b + c, a), id, fun x => 2 * x, fun x => x * x, id⟩

/-- Concrete feed-forward module used by the `C5` witness. -/
def ffnW : PositionwiseFeedForward 1 1 1 1 1 :=
  ⟨id, id, id, id⟩

/-- Witness input of shape `[1, 1, 1]`. -/
def xsW5 : Tensor3 1 1 1 := fun _ _ _ => 3

/-- Concrete decoder block over `ℤ` with `src_tgt_attention = false`, as built by
`TransformerDecoderBlock.init` in the `C9` witness. -/
def decBlkW : TransformerDecoderBlock ℤ ℤ Unit :=
  ⟨"scaled_dot", false, fun y => y + 1, fun a b c _ => (a * b, c), id,
   fun y => 2 * y, fun x _ q _ => (x.getD 0 + q, q), id, fun y => y * y, fun y => y + 3, id⟩

/-- C1: each unsupported configuration combination raises `NotImplementedError`:
`PositionalEncoding.forward` for every `pe_type` outside `{'none','add','concat'}`,
`PositionwiseFeedForward.__init__` for every `nonlinear` outside
`{'relu','gelu','gelu_accurate','glu'}`, and `TransformerDecoderBlock.__init__`
whenever `atype == 'average'`. -/
theorem C1_unsupported_configs_raise :
    (∀ (m : PositionalEncoding) (B T D : ℕ)
        (dropout : (E : ℕ) → Tensor3 B T E → Tensor3 B T E) (xs : Tensor3 B T D),
        m.pe_type ≠ "none" → m.pe_type ≠ "add" → m.pe_type ≠ "concat" →
        PositionalEncoding.forward m dropout xs = Except.error PEErr.notImplemented) ∧
    (∀ s : String, s ≠ "relu" → s ≠ "gelu" → s ≠ "gelu_accurate" → s ≠ "glu" →
        PositionwiseFeedForward.selectNonlinear s = none) ∧
    (∀ (α β μ : Type) (ffn_nl : String) (stga : Bool)
        (n1 : α → α) (sa : α → α → α → Option μ → α × β) (d1 : α → α)
        (n2 : α → α) (srca : Option α → Option α → α → Option μ → α × β) (d2 : α → α)
        (n3 : α → α) (ffw : α → α) (d3 : α → α),
        TransformerDecoderBlock.init ("average") ffn_nl stga
          n1 sa d1 n2 srca d2 n3 ffw d3 = none) := by
  refine ⟨?_, ?_, ?_⟩
  · intro m B T D dropout xs h1 h2 h3
    unfold PositionalEncoding.forward
    rw [if_neg h1, if_neg h2, if_neg h3]
  · intro s h1 h2 h3 h4
    unfold PositionwiseFeedForward.selectNonlinear
    rw [if_neg h1, if_neg h2, if_neg h3, if_neg h4]
  · intro α β μ ffn_nl stga n1 sa d1 n2 srca d2 n3 ffw d3
    unfold TransformerDecoderBlock.init
    rw [if_pos rfl]

/-- Witness for C1 at the concrete unsupported values `pe_type = "bogus"`,
`nonlinear = "tanh"`, `atype = "average"`. -/
theorem C1_witness :
    PositionalEncoding.forward peBogusW dropW xsW1 = Except.error PEErr.notImplemented ∧
    PositionwiseFeedForward.selectNonlinear ("tanh") = none ∧
    TransformerDecoderBlock.init ("average") ("relu") true
      (fun y : ℤ => y) (fun a b c (_ : Option Unit) => (a + b, (c : ℤ))) id
      id (fun _ _ q _ => (q, q)) id id id id = none :=
  ⟨C1_unsupported_configs_raise.1 peBogusW 1 1 4 dropW xsW1
      (by decide) (by decide) (by decide),
   C1_unsupported_configs_raise.2.1 ("tanh") (by decide) (by decide) (by decide) (by decide),
   C1_unsupported_configs_raise.2.2 ℤ ℤ Unit ("relu") true
      (fun y : ℤ => y) (fun a b c _ => (a + b, c)) id
      id (fun _ _ q _ => (q, q)) id id id id⟩

/-- Helper: each `div_term` entry computed in log space equals the published
power form, `exp(2j * -(log 10000 / d)) = 10000 ^ (-2j/d)`. -/
theorem PositionalEncoding.divTerm_eq_rpow (d j : ℕ) :
    PositionalEncoding.divTerm d j = (10000 : ℝ) ^ (-(2 * (j : ℝ)) / (d : ℝ)) := by
  unfold PositionalEncoding.divTerm
  rw [Real.rpow_def_of_pos (by norm_num)]
  congr 1
  push_cast
  ring

/-- C3: the table precomputed by `PositionalEncoding.__init__` (for every
`pe_type` other than `'none'`) is the published sinusoidal encoding: for every
`pos < max_len` and even index `2i < d_model`,
`pe[0, pos, 2i] = sin(pos * 10000^(-2i/d_model))` and, whenever the entry
`2i+1 < d_model` exists, `pe[0, pos, 2i+1] = cos(pos * 10000^(-2i/d_model))`.
The existence guard on the cosine entry matters only for `d_model = 1`, where
the buffer has a single column and `pe[0, pos, 1]` does not exist; for every
even `d_model` it is implied by `2i < d_model`. -/
theorem C3_sinusoidal_table (d maxLen : ℕ) (pt : String) (m : PositionalEncoding)
    (hpt : pt ≠ "none") (hinit : PositionalEncoding.init d pt maxLen = some m)
    (pos i : ℕ) (hpos : pos < maxLen) (hi : 2 * i < d) :
    m.pe = some (PositionalEncoding.peTable d maxLen) ∧
    PositionalEncoding.peTable d maxLen pos (2 * i) =
      Real.sin ((pos : ℝ) * (10000 : ℝ) ^ (-(2 * (i : ℝ)) / (d : ℝ))) ∧
    (2 * i + 1 < d →
      PositionalEncoding.peTable d maxLen pos (2 * i + 1) =
        Real.cos ((pos : ℝ) * (10000 : ℝ) ^ (-(2 * (i : ℝ)) / (d : ℝ)))) := by
  unfold PositionalEncoding.init at hinit
  rw [if_neg hpt] at hinit
  by_cases hc : ((d + 1) / 2 = (d + 1) / 2 ∨ (d + 1) / 2 = 1) ∧
      ((d + 1) / 2 = d / 2 ∨ (d + 1) / 2 = 1)
  · rw [if_pos hc] at hinit
    injection hinit with h
    subst h
    refine ⟨rfl, ?_, ?_⟩
    · unfold PositionalEncoding.peTable
      rw [if_pos ⟨hpos, hi⟩, if_pos (by omega)]
      have h2 : 2 * i / 2 = i := by omega
      rw [h2, PositionalEncoding.divTerm_eq_rpow]
    · intro hodd
      unfold PositionalEncoding.peTable
      rw [if_pos ⟨hpos, hodd⟩, if_neg (by omega)]
      have h2 : (2 * i + 1) / 2 = i := by omega
      rw [h2, PositionalEncoding.divTerm_eq_rpow]
  · rw [if_neg hc] at hinit
    exact Option.noConfusion hinit

/-- Witness for C3 at `d_model = 2`, `max_len = 5`, `pos = 0`, `i = 0`. -/
theorem C3_witness :
    peAddW.pe = some (PositionalEncoding.peTable 2 5) ∧
    PositionalEncoding.peTable 2 5 0 (2 * 0) =
      Real.sin (((0 : ℕ) : ℝ) * (10000 : ℝ) ^ (-(2 * ((0 : ℕ) : ℝ)) / ((2 : ℕ) : ℝ))) ∧
    PositionalEncoding.peTable 2 5 0 (2 * 0 + 1) =
      Real.cos (((0 : ℕ) : ℝ) * (10000 : ℝ) ^ (-(2 * ((0 : ℕ) : ℝ)) / ((2 : ℕ) : ℝ))) := by
  have h := C3_sinusoidal_table 2 5 ("add") peAddW (by decide) rfl 0 0 (by decide) (by decide)
  exact ⟨h.1, h.2.1, h.2.2 (by decide)⟩

/-- C7: for `pe_type = 'add'` and an input of shape `[B, T, d_model]` with
`T ≤ max_len`, `forward` returns `dropout(xs * sqrt(d_model) + pe[:, :T])`
(the buffer row `t` added to every batch element), and the output has the same
shape `[B, T, d_model]` as the input. -/
theorem C7_pe_add_formula (d maxLen : ℕ) (m : PositionalEncoding)
    (hinit : PositionalEncoding.init d ("add") maxLen = some m)
    (B T : ℕ) (hT : T ≤ maxLen)
    (dropout : (E : ℕ) → Tensor3 B T E → Tensor3 B T E) (xs : Tensor3 B T d) :
    PositionalEncoding.forward m dropout xs =
      Except.ok ⟨d, dropout d (fun b t i =>
        xs b t i * Real.sqrt ((d : ℕ) : ℝ) + PositionalEncoding.peTable d maxLen t i)⟩ := by
  unfold PositionalEncoding.init at hinit
  rw [if_neg (by decide)] at hinit
  by_cases hc : ((d + 1) / 2 = (d + 1) / 2 ∨ (d + 1) / 2 = 1) ∧
      ((d + 1) / 2 = d / 2 ∨ (d + 1) / 2 = 1)
  · rw [if_pos hc] at hinit
    injection hinit with h
    subst h
    unfold PositionalEncoding.forward
    simp [hT]
  · rw [if_neg hc] at hinit
    exact Option.noConfusion hinit

/-- Witness for C7 at `d_model = 2`, `max_len = 5`, `B = T = 1`, identity dropout. -/
theorem C7_witness :
    PositionalEncoding.forward peAddW dropW xsW7 =
      Except.ok ⟨2, dropW 2 (fun b t i =>
        xsW7 b t i * Real.sqrt ((2 : ℕ) : ℝ) + PositionalEncoding.peTable 2 5 t i)⟩ :=
  C7_pe_add_formula 2 5 peAddW rfl 1 1 (by decide) dropW xsW7

/-- C8: for `pe_type = 'none'`, `forward` returns exactly `xs * sqrt(d_model)`:
there is no positional buffer (`pe = none`) and the result does not depend on
the dropout function at all (the `'none'` branch returns before dropout), so
it is deterministic even in training mode. -/
theorem C8_pe_none_scaling (d maxLen : ℕ) (m : PositionalEncoding)
    (hinit : PositionalEncoding.init d ("none") maxLen = some m)
    (B T D : ℕ) (dropout : (E : ℕ) → Tensor3 B T E → Tensor3 B T E)
    (xs : Tensor3 B T D) :
    m.pe = none ∧
    PositionalEncoding.forward m dropout xs =
      Except.ok ⟨D, fun b t i => xs b t i * Real.sqrt ((d : ℕ) : ℝ)⟩ := by
  unfold PositionalEncoding.init at hinit
  rw [if_pos rfl] at hinit
  injection hinit with h
  subst h
  exact ⟨rfl, rfl⟩

/-- Witness for C8 at `d_model = 2`, `B = T = 1`, `D = 2`. -/
theorem C8_witness :
    peNoneW.pe = none ∧
    PositionalEncoding.forward peNoneW dropW xsW8 =
      Except.ok ⟨2, fun b t i => xsW8 b t i * Real.sqrt ((2 : ℕ) : ℝ)⟩ :=
  C8_pe_none_scaling 2 5 peNoneW rfl 1 1 2 dropW xsW8

/-- C4: with dropout acting as the identity (eval mode),
`TransformerEncoderBlock.forward` is the pre-norm residual block: it returns
`(out, xx_aws)` with `h = self_attn(norm1 xs, norm1 xs, norm1 xs, mask) + xs`
and `out = feed_forward(norm2 h) + h`; each sublayer is applied to the
layer-normalized input and added back to its own residual input. -/
theorem C4_encoder_prenorm {α β μ : Type} [Add α]
    (blk : TransformerEncoderBlock α β μ)
    (hd1 : blk.dropout1 = id) (hd2 : blk.dropout2 = id)
    (xs : α) (mask : Option μ) :
    TransformerEncoderBlock.forward blk xs mask =
      (blk.feed_forward (blk.norm2
          ((blk.self_attn (blk.norm1 xs) (blk.norm1 xs) (blk.norm1 xs) mask).1 + xs)) +
        ((blk.self_attn (blk.norm1 xs) (blk.norm1 xs) (blk.norm1 xs) mask).1 + xs),
      (blk.self_attn (blk.norm1 xs) (blk.norm1 xs) (blk.norm1 xs) mask).2) := by
  unfold TransformerEncoderBlock.forward
  rw [hd1, hd2]
  rfl

/-- Witness for C4 on a concrete integer block with identity dropout:
`norm1 5 = 6`, `self_attn 6 6 6 = (42, 6)`, `h = 47`, `norm2 h = 94`,
`feed_forward 94 = 8836`, `out = 8883`. -/
theorem C4_witness :
    TransformerEncoderBlock.forward encBlkW 5 none = (8883, 6) := by
  rw [C4_encoder_prenorm encBlkW rfl rfl 5 none]
  decide

/-- C5: `PositionwiseFeedForward.forward` computes exactly
`w_2(dropout(nonlinear(w_1(xs))))`, which with identity dropout (eval mode)
equals `w_2(nonlinear(w_1(xs)))`; `w_1` maps `d_in` to `d_ff` and `w_2` maps
`d_ff` to `d_out` (visible in the types). -/
theorem C5_ffn_formula {B T d_in d_ff d_out : ℕ}
    (f : PositionwiseFeedForward B T d_in d_ff d_out) (xs : Tensor3 B T d_in) :
    PositionwiseFeedForward.forward f xs = f.w_2 (f.dropout (f.nonlinear (f.w_1 xs))) ∧
    (f.dropout = id →
      PositionwiseFeedForward.forward f xs = f.w_2 (f.nonlinear (f.w_1 xs))) := by
  refine ⟨rfl, fun h => ?_⟩
  simp [PositionwiseFeedForward.forward, h]

/-- Witness for C5 on a concrete feed-forward module with identity dropout. -/
theorem C5_witness :
    PositionwiseFeedForward.forward ffnW xsW5 =
      ffnW.w_2 (ffnW.dropout (ffnW.nonlinear (ffnW.w_1 xsW5))) ∧
    PositionwiseFeedForward.forward ffnW xsW5 =
      ffnW.w_2 (ffnW.nonlinear (ffnW.w_1 xsW5)) :=
  ⟨(C5_ffn_formula ffnW xsW5).1, (C5_ffn_formula ffnW xsW5).2 rfl⟩

/-- C9: a `TransformerDecoderBlock` constructed with `src_tgt_attention = False`
returns `xy_aw = None`, and its output is identical for any two values of the
encoder outputs `xs` and of `xy_mask`: the decoder output does not depend on
the encoder inputs at all. -/
theorem C9_decoder_ignores_encoder {α β μ : Type} [Add α]
    (atype ffn_nl : String)
    (n1 : α → α) (sa : α → α → α → Option μ → α × β) (d1 : α → α)
    (n2 : α → α) (srca : Option α → Option α → α → Option μ → α × β) (d2 : α → α)
    (n3 : α → α) (ffw : α → α) (d3 : α → α)
    (blk : TransformerDecoderBlock α β μ)
    (hinit : TransformerDecoderBlock.init atype ffn_nl false
        n1 sa d1 n2 srca d2 n3 ffw d3 = some blk)
    (ys : α) (yy_mask : Option μ) (xs xs2 : Option α) (xy_mask xy_mask2 : Option μ) :
    TransformerDecoderBlock.forward blk ys yy_mask xs xy_mask =
      TransformerDecoderBlock.forward blk ys yy_mask xs2 xy_mask2 ∧
    (TransformerDecoderBlock.forward blk ys yy_mask xs xy_mask).map
        (fun r => r.2.2) = some none := by
  unfold TransformerDecoderBlock.init at hinit
  by_cases ha : atype = "average"
  · rw [if_pos ha] at hinit
    exact Option.noConfusion hinit
  · rw [if_neg ha] at hinit
    by_cases hn : (PositionwiseFeedForward.selectNonlinear ffn_nl).isSome = true
    · rw [if_pos hn] at hinit
      injection hinit with h
      subst h
      unfold TransformerDecoderBlock.forward
      simp [ha]
    · rw [if_neg hn] at hinit
      exact Option.noConfusion hinit

/-- Witness for C9: a concrete integer decoder block with
`src_tgt_attention = false`; two different encoder outputs and masks give the
same result, whose `xy_aw` component is `none`. -/
theorem C9_witness :
    TransformerDecoderBlock.forward decBlkW 3 none (some 7) none =
      TransformerDecoderBlock.forward decBlkW 3 none (some 99) (some ()) ∧
    (TransformerDecoderBlock.forward decBlkW 3 none (some 7) none).map
        (fun r => r.2.2) = some none :=
  C9_decoder_ignores_encoder ("scaled_dot") ("relu")
    (fun y => y + 1) (fun a b c _ => (a * b, c)) id
    (fun y => 2 * y) (fun x _ q _ => (x.getD 0 + q, q)) id
    (fun y => y * y) (fun y => y + 3) id
    decBlkW rfl 3 none (some 7) none (some 99) (some ())

/-- Helper: the training loop executes at most `fuel` more optimizer steps. -/
theorem TestAttention.loopAux_le (ler : ℕ → ℚ) :
    ∀ fuel step : ℕ, TestAttention.loopAux ler fuel step ≤ step + fuel := by
  intro fuel
  induction fuel with
  | zero => intro step; simp [TestAttention.loopAux]
  | succ n ih =>
    intro step
    unfold TestAttention.loopAux
    split
    · omega
    · have h := ih (step + 1)
      omega

/-- Helper: with the error stuck at `1`, the break condition `ler < 0.1` never
fires and the loop runs through all its iterations. -/
theorem TestAttention.loopAux_const_one :
    ∀ fuel step : ℕ, TestAttention.loopAux (fun _ => (1 : ℚ)) fuel step = step + fuel := by
  intro fuel
  induction fuel with
  | zero => intro step; simp [TestAttention.loopAux]
  | succ n ih =>
    intro step
    unfold TestAttention.loopAux
    rw [if_neg (by norm_num), ih (step + 1)]
    omega

/-- Counterexample to C6: on a run whose edit-distance error stays at `1`
forever — it never decreases — `TestAttention.check` still executes all
`max_step = 1000` optimizer steps and returns normally: the test passes.  The
body contains no assertion; the only use of the error value is the early-stop
comparison `ler < 0.1`, so nothing checks that the error decreases. -/
theorem C6_counterexample_no_decrease_check :
    TestAttention.stepsRun TestAttention.maxStep (fun _ => (1 : ℚ)) = TestAttention.maxStep ∧
    TestAttention.checkOutcome TestAttention.maxStep (fun _ => (1 : ℚ)) = TestOutcome.pass := by
  constructor
  · have h := TestAttention.loopAux_const_one TestAttention.maxStep 0
    simpa [TestAttention.stepsRun] using h
  · rfl

/-- C6 as amended: the driver test trains each toy configuration for at most
`max_step = 1000` optimizer steps, decoding every 10 steps and stopping early
once the edit-distance error falls below `0.1`; it contains no assertion, so
it passes whether or not the error decreases. -/
theorem C6_train_loop_bounded_never_fails :
    ∀ ler : ℕ → ℚ,
      TestAttention.stepsRun TestAttention.maxStep ler ≤ TestAttention.maxStep ∧
      TestAttention.checkOutcome TestAttention.maxStep ler = TestOutcome.pass := by
  intro ler
  refine ⟨?_, rfl⟩
  have h := TestAttention.loopAux_le ler TestAttention.maxStep 0
  simpa [TestAttention.stepsRun] using h
